import Mathlib

/-!
Shallow embedding of the Eidolon job-orchestration code paths and a
verification of the specification's claims about them.

Embedded source files:
* `frontend/lib/store.ts` — the client-side queue store (Zustand slice):
  `QueueItem`, `addToQueue`, `updateQueueItemStatus`, `removeFromQueue`.
* `frontend/app/api/video-status/[sessionId]/route.ts` — the status-poll
  route handler (mock implementation shipped in the repository).
* `frontend/lib/api.ts` — the polling client helper `getQueueStatus`.
* server actions (`createVideoPrompt`) and the submit route handler `POST`.
* The Improvement Loop of §4.5 of the specification, whose Python source
  (`video_improver*.py`) is not part of the shipped sources; it is modelled
  from the specification text where noted.

JavaScript numbers are embedded as `Int` (where negative values are
reachable) or `Nat` (timestamps from `Date.now()`); exact integer
arithmetic stands in for float arithmetic on the integral values that
actually occur. Optional fields / possibly-`undefined` arguments are
embedded as `Option`.
-/

namespace Eidolon

/-! ## Queue store (`frontend/lib/store.ts`) -/

/-- The status union of `QueueItem` in `store.ts`:
`'queued' | 'rendering' | 'complete' | 'error'`. -/
inductive Status where
  | queued
  | rendering
  | complete
  | error
deriving DecidableEq, Repr

/-- Position of a status along the forward direction of the state graph;
`error` is a terminal side-exit reachable from any non-terminal state. -/
def statusRank : Status → Nat
  | Status.queued => 0
  | Status.rendering => 1
  | Status.complete => 2
  | Status.error => 2

/-- `complete` and `error` are the terminal states of the state machine. -/
def isTerminal : Status → Bool
  | Status.complete => true
  | Status.error => true
  | _ => false

/-- `QueueItem` from `store.ts`: `id` and `createdAt` come from
`Date.now()`, `progress` is a JS number (possibly absent), `message`,
`videoUrl` and `videoId` are optional strings. -/
structure QueueItem where
  id : Nat
  prompt : String
  videoId : Option String
  status : Status
  progress : Option Int
  message : Option String
  videoUrl : Option String
  createdAt : Nat
deriving DecidableEq, Repr

/-- `addToQueue(prompt, videoId?)` from `store.ts`: appends a new item with
`id = Date.now()`, `status: 'queued'`, `progress: 0`,
`createdAt = Date.now()`; `message` and `videoUrl` are not set. -/
def addToQueue (q : List QueueItem) (prompt : String) (videoId : Option String)
    (now : Nat) : List QueueItem :=
  q ++ [{ id := now
          prompt := prompt
          videoId := videoId
          status := Status.queued
          progress := some 0
          message := none
          videoUrl := none
          createdAt := now }]

/-- `updateQueueItemStatus(id, status, progress?, message?, videoUrl?)` from
`store.ts`: maps over the queue and replaces the item whose `id` matches by
`{ ...item, status, progress, message, videoUrl }` — the four named fields
are overwritten with the call's arguments (an omitted optional argument is
`undefined`, embedded as `none`). -/
def updateQueueItemStatus (q : List QueueItem) (id : Nat) (status : Status)
    (progress : Option Int) (message : Option String)
    (videoUrl : Option String) : List QueueItem :=
  q.map fun item =>
    if item.id = id then
      { item with
        status := status
        progress := progress
        message := message
        videoUrl := videoUrl }
    else item

/-- `removeFromQueue(id)` from `store.ts`. -/
def removeFromQueue (q : List QueueItem) (id : Nat) : List QueueItem :=
  q.filter fun item => item.id ≠ id

/-! ## Status-poll route (`frontend/app/api/video-status/[sessionId]/route.ts`)

The handler derives everything from the session id and the wall clock:
`sessionTimestamp = parseInt(sessionId.split('_')[1] || '0')`,
`elapsed = Date.now() - sessionTimestamp`, then branches on
`elapsed < 10000`.  It consults no job state at all. -/

/-- JS `String.prototype.split('_')` on the character list: every
occurrence of `'_'` separates fields; `""` splits to `[""]`. -/
def splitUnderscore : List Char → List (List Char)
  | [] => [[]]
  | c :: cs =>
    match splitUnderscore cs with
    | [] => if c = '_' then [[], []] else [[c]]
    | p :: ps => if c = '_' then [] :: p :: ps else (c :: p) :: ps

/-- Longest leading run of decimal digits as a number; `none` when the
first character is not a digit (JS `parseInt` would give `NaN`). -/
def parseDigits (cs : List Char) : Option Nat :=
  match cs.takeWhile (fun c => c.isDigit) with
  | [] => none
  | ds => some (ds.foldl (fun acc c => acc * 10 + (c.toNat - 48)) 0)

/-- JS `parseInt(s)` (radix 10) on the relevant inputs: an optional sign
followed by decimal digits; `none` embeds `NaN`. -/
def jsParseInt (cs : List Char) : Option Int :=
  match cs with
  | '-' :: rest => (parseDigits rest).map (fun n => -(n : Int))
  | '+' :: rest => (parseDigits rest).map (fun n => (n : Int))
  | _ => (parseDigits cs).map (fun n => (n : Int))

/-- `parseInt(sessionId.split('_')[1] || '0')` from the route handler:
a missing or empty (falsy) second field falls back to `'0'`. -/
def sessionTimestampOf (sessionId : String) : Option Int :=
  let parts := splitUnderscore sessionId.toList
  let raw :=
    match parts.get? 1 with
    | some p => if p.isEmpty then ['0'] else p
    | none => ['0']
  jsParseInt raw

/-- The JSON body produced by the route handler; absent fields are `none`.
The three branches populate different subsets of the fields. -/
structure StatusResponse where
  status : String
  progress : Option Int
  message : Option String
  videoUrl : Option String
  error : Option String
deriving DecidableEq, Repr

/-- The `elapsed < 10000` branch of the handler:
`progress: Math.min(Math.floor((elapsed / 10000) * 100), 99)`; the float
expression `Math.floor((elapsed / 10000) * 100)` equals `⌊elapsed / 100⌋`
in exact arithmetic, embedded with `Int.fdiv`. No `videoUrl` is sent. -/
def generatingResponse (elapsed : Int) : StatusResponse :=
  { status := "generating"
    progress := some (min (Int.fdiv elapsed 100) 99)
    message := some "Generating Manim animation..."
    videoUrl := none
    error := none }

/-- The `else` branch of the handler: a fixed completed payload with a mock
video URL and no `progress` field. -/
def completedResponse : StatusResponse :=
  { status := "completed"
    progress := none
    message := some "Video generated successfully"
    videoUrl :=
      some "https://commondatastorage.googleapis.com/gtv-videos-bucket/sample/BigBuckBunny.mp4"
    error := none }

/-- The `catch` branch of the handler (HTTP 500): status `error` with an
error string and neither progress, message nor video URL. -/
def errorResponse : StatusResponse :=
  { status := "error"
    progress := none
    message := none
    videoUrl := none
    error := some "Failed to get video status" }

/-- The route handler `GET` as a function of the session id and the current
time (`Date.now()`). A `NaN` session timestamp makes `elapsed` `NaN`, so
`elapsed < 10000` is false and the `else` (completed) branch runs. -/
def videoStatusGET (sessionId : String) (now : Int) : StatusResponse :=
  match sessionTimestampOf sessionId with
  | none => completedResponse
  | some ts =>
    let elapsed := now - ts
    if elapsed < 10000 then generatingResponse elapsed else completedResponse

/-! ## Polling client helper (`frontend/lib/api.ts`) -/

/-- `getQueueStatus` from `api.ts`, applied to the parsed JSON body of a
successful response: `return data.status; // return only the status`. -/
def getQueueStatus (data : StatusResponse) : String :=
  data.status

/-! ## Submit path: server action `createVideoPrompt` and route `POST`

`createVideoPrompt` validates its input, connects to MongoDB, inserts a
document into `videoPrompts` with `status: 'pending'`, notifies the
backend, and returns `{success, data: {insertedId}}` or `{success, error}`.
The database is embedded as the list of inserted documents; `insertOne`
assigns the next fresh id. The external effects that can fail are embedded
as boolean parameters (`dbUp`: `connectToDb` succeeds; `backendUrlDefined`:
`BACKEND_API_URL` is set). The third component of the result records
whether `connectToDb` was invoked. -/

/-- A document of the `videoPrompts` collection as `createVideoPrompt`
inserts it: the request payload spread together with `status: 'pending'`
and `createdAt`; `docId` embeds the Mongo `_id`. -/
structure VideoPromptDoc where
  userid : String
  prompt : String
  status : String
  createdAt : Int
  docId : Nat
deriving DecidableEq, Repr

/-- Return value of `createVideoPrompt`: `success`, optional `error`
string, and `data.insertedId` on success. No status field is returned. -/
structure CreateResult where
  success : Bool
  error : Option String
  insertedId : Option Nat
deriving DecidableEq, Repr

/-- `createVideoPrompt(promptData)` from the server actions file.
Order of the source: (1) validate `userid`/`prompt` (JS falsiness: the
empty string is falsy) and return early without touching the database;
(2) `connectToDb`, returning an error on failure; (3) insert the document
with `status: 'pending'` and `createdAt`; (4) require `BACKEND_API_URL`
(checked after the insert) and call the backend; (5) return
`{success: true, data: {insertedId}}`. -/
def createVideoPrompt (userid prompt : String) (now : Int)
    (dbUp backendUrlDefined : Bool) (db : List VideoPromptDoc) :
    CreateResult × List VideoPromptDoc × Bool :=
  if userid = "" ∨ prompt = "" then
    ({ success := false
       error := some "User ID and prompt are required."
       insertedId := none }, db, false)
  else if dbUp = false then
    ({ success := false
       error := some "Failed to connect to the database."
       insertedId := none }, db, true)
  else
    let docId := db.length
    let db' := db ++ [{ userid := userid
                        prompt := prompt
                        status := "pending"
                        createdAt := now
                        docId := docId }]
    if backendUrlDefined = false then
      ({ success := false
         error := some "BACKEND_API_URL environment variable not defined"
         insertedId := none }, db', true)
    else
      ({ success := true
         error := none
         insertedId := some docId }, db', true)

/-- JSON body and HTTP status sent by the submit route handler `POST`. -/
structure PostResponse where
  httpStatus : Nat
  success : Bool
  error : Option String
  insertedId : Option Nat
deriving DecidableEq, Repr

/-- The submit route handler `POST` (the `app` route calling
`createVideoPrompt`). It first checks `!body.userid || !body.prompt` and
answers 400 without invoking `createVideoPrompt`; otherwise it forwards the
action's result as 200 `{success, insertedId}` or 500. The last component
records whether `createVideoPrompt` was invoked. -/
def submitPOST (userid prompt : String) (now : Int)
    (dbUp backendUrlDefined : Bool) (db : List VideoPromptDoc) :
    PostResponse × List VideoPromptDoc × Bool :=
  if userid = "" ∨ prompt = "" then
    ({ httpStatus := 400
       success := false
       error := some "Missing userid or prompt"
       insertedId := none }, db, false)
  else
    let r := createVideoPrompt userid prompt now dbUp backendUrlDefined db
    if r.1.success then
      ({ httpStatus := 200
         success := true
         error := none
         insertedId := r.1.insertedId }, r.2.1, true)
    else
      ({ httpStatus := 500
         success := false
         error := some "Failed to create video prompt"
         insertedId := none }, r.2.1, true)

/-! ## Improvement Loop (spec §4.5)

Modelled from the spec: the Python sources of the improvement system
(`video_improver.py` and variants, referenced by the repository's
documentation) are not among the shipped source files, so the loop is
embedded from the specification text of §4.5, faithful to its numbered
steps. Collaborators (render, scoring, patch, structural validation) are
opaque functions, indexed by the iteration to allow arbitrary per-cycle
behavior; scores are exact rationals. -/

/-- Structured feedback of one scoring call (spec §4.5 step 2 and §6):
per-dimension scores, overall = arithmetic mean of the dimensions, and
`satisfied` = overall ≥ target. -/
structure Feedback where
  dimScores : List ℚ
  overall : ℚ
  satisfied : Bool
deriving DecidableEq, Repr

/-- Modelled from the spec: one IterationRecord (§3) — 1-based iteration
index, ScriptArtifact snapshot, VideoArtifact reference and feedback. -/
structure IterationRecord (S V : Type) where
  idx : Nat
  script : S
  video : V
  feedback : Feedback
deriving DecidableEq, Repr

/-- Final outcome of an ImprovementSession (§3). -/
inductive Outcome where
  | satisfied
  | exhausted
  | aborted
deriving DecidableEq, Repr

/-- Arithmetic mean of the per-dimension scores (spec §4.5 step 2). -/
def meanScore (dims : List ℚ) : ℚ :=
  dims.sum / (dims.length : ℚ)

/-- Modelled from the spec: invoke the scoring collaborator and assemble
the feedback — overall is the mean of the dimension scores and
`satisfied` holds iff overall ≥ target (§4.5 step 2). -/
def scoreVideo {V : Type} (score : Nat → V → List ℚ) (target : ℚ)
    (i : Nat) (v : V) : Feedback :=
  let dims := score i v
  let overall := meanScore dims
  { dimScores := dims
    overall := overall
    satisfied := decide (target ≤ overall) }

/-- Modelled from the spec: the body of the Improvement Loop (§4.5), for
iteration `i` with `r` iterations of the budget remaining
(`r = max - i + 1`). Steps per iteration: (1) render a video for the
current script; (2) score it; (3) persist the IterationRecord; (4) stop
`satisfied` when satisfied; (5) stop `exhausted` when the budget is spent;
(6) otherwise patch, keeping the current script when the candidate fails
structural validation (the spent cycle still counts against the budget). -/
def runImprove {S V : Type} (render : Nat → S → V) (score : Nat → V → List ℚ)
    (patch : Nat → S → Feedback → S) (validScript : S → Bool) (target : ℚ) :
    Nat → Nat → S → List (IterationRecord S V) →
    Outcome × List (IterationRecord S V)
  | _, 0, _, acc => (Outcome.exhausted, acc)
  | i, r + 1, script, acc =>
    let video := render i script
    let fb := scoreVideo score target i video
    let acc' := acc ++ [⟨i, script, video, fb⟩]
    if fb.satisfied then
      (Outcome.satisfied, acc')
    else if r = 0 then
      (Outcome.exhausted, acc')
    else
      let cand := patch i script fb
      let script' := if validScript cand then cand else script
      runImprove render score patch validScript target (i + 1) r script' acc'

/-- Modelled from the spec: the Improvement Loop (§4.5) on an initial
ScriptArtifact with a target score and a max iteration count, returning
the session's final outcome and its ordered list of IterationRecords. -/
def improvementLoop {S V : Type} (render : Nat → S → V)
    (score : Nat → V → List ℚ) (patch : Nat → S → Feedback → S)
    (validScript : S → Bool) (target : ℚ) (maxIterations : Nat) (s0 : S) :
    Outcome × List (IterationRecord S V) :=
  runImprove render score patch validScript target 1 maxIterations s0 []

/-! ### Scenario B collaborators (spec §8)

Deterministic collaborator behaviors realizing Scenario B: the successive
scoring calls yield overall scores 6.5, 7.2 and 8.3 (a single quality
dimension, so the mean is the dimension score itself); rendering and
patching are benign and every candidate is structurally valid. -/

/-- Modelled from the spec: Scenario B render collaborator (opaque). -/
def scenarioBRender (_ : Nat) (s : String) : String := s

/-- Modelled from the spec: Scenario B scoring collaborator — dimension
scores whose means are 6.5, 7.2 and 8.3 on iterations 1, 2 and 3. -/
def scenarioBScore (i : Nat) (_ : String) : List ℚ :=
  if i = 1 then [13 / 2] else if i = 2 then [36 / 5] else [83 / 10]

/-- Modelled from the spec: Scenario B patch collaborator (opaque). -/
def scenarioBPatch (_ : Nat) (s : String) (_ : Feedback) : String := s ++ "+"

/-- Modelled from the spec: Scenario B structural validation — every
candidate passes. -/
def scenarioBValid (_ : String) : Bool := true

/-! # Theorems -/

/-! ## C1 — status updates and the state machine -/

/-- Claim C1 counterexample: `updateQueueItemStatus` is a blind overwrite,
not a compare-and-set. Starting from a queue whose single item is in the
terminal state `complete`, a plain update call stores `queued` — the stored
status leaves a terminal state and returns to an earlier state, refuting
the claim that stored transitions are one-directional and never leave a
terminal state. -/
theorem C1_counterexample_terminal_overwritten :
    ((updateQueueItemStatus
        [{ id := 1, prompt := "p", videoId := none, status := Status.complete,
           progress := some 100, message := none, videoUrl := some "u",
           createdAt := 0 }]
        1 Status.queued none none none).map fun item => item.status)
      = [Status.queued]
    ∧ isTerminal Status.complete = true
    ∧ statusRank Status.queued < statusRank Status.complete := by
  decide

/-- Claim C1 (amended): `updateQueueItemStatus` applies a blind overwrite —
the matched item's stored status becomes exactly the supplied status,
independent of the previously stored status, with no compare-and-set;
consequently the store does not enforce monotonicity of the state graph
and terminal states are not preserved. -/
theorem C1_amended_blind_status_overwrite (q : List QueueItem) (id : Nat)
    (st : Status) (p : Option Int) (m : Option String) (v : Option String)
    (i : Nat) (item : QueueItem) (h : q[i]? = some item)
    (hid : item.id = id) :
    ((updateQueueItemStatus q id st p m v)[i]?).map (fun it => it.status)
      = some st := by
  simp [updateQueueItemStatus, List.getElem?_map, h, hid]

/-- Claim C1 witness: the amended theorem applied to a one-element queue in
state `complete` being overwritten with `queued`. -/
theorem C1_amended_blind_status_overwrite_witness :
    ((updateQueueItemStatus
        [{ id := 1, prompt := "p", videoId := none, status := Status.complete,
           progress := some 100, message := none, videoUrl := some "u",
           createdAt := 0 }]
        1 Status.queued none none none)[0]?).map (fun it => it.status)
      = some Status.queued :=
  C1_amended_blind_status_overwrite
    [{ id := 1, prompt := "p", videoId := none, status := Status.complete,
       progress := some 100, message := none, videoUrl := some "u",
       createdAt := 0 }]
    1 Status.queued none none none 0
    { id := 1, prompt := "p", videoId := none, status := Status.complete,
      progress := some 100, message := none, videoUrl := some "u",
      createdAt := 0 }
    (by decide) (by decide)

/-! ## C2 — idempotence of status queries -/

/-- Claim C2 counterexample: the status route reads no job state — its
response is a function of the session id and the wall clock — so two
successive queries against the same (unchanged, indeed unconsulted) job
differ: at 1000 ms and 2000 ms after session timestamp 0 the reported
progress is 10 versus 20, not bit-identical. -/
theorem C2_counterexample_time_dependent_response :
    videoStatusGET "session_0" 1000 ≠ videoStatusGET "session_0" 2000
    ∧ (videoStatusGET "session_0" 1000).progress = some 10
    ∧ (videoStatusGET "session_0" 2000).progress = some 20 := by
  decide

/-- Claim C2 (amended): responses are bit-identical only once both queries
fall in the completed phase — whenever at least 10000 ms have elapsed since
the parsed session timestamp at both query times, the responses are equal
(during the generating phase the response varies with elapsed wall-clock
time even though no job state changed). -/
theorem C2_amended_completed_phase_idempotent (sid : String)
    (t1 t2 ts : Int) (h : sessionTimestampOf sid = some ts)
    (h1 : 10000 ≤ t1 - ts) (h2 : 10000 ≤ t2 - ts) :
    videoStatusGET sid t1 = videoStatusGET sid t2 := by
  simp only [videoStatusGET, h]
  rw [if_neg (by omega), if_neg (by omega)]

/-- Claim C2 witness: the amended theorem applied to session `session_0`
at times 10000 and 20000. -/
theorem C2_amended_completed_phase_idempotent_witness :
    videoStatusGET "session_0" 10000 = videoStatusGET "session_0" 20000 :=
  C2_amended_completed_phase_idempotent "session_0" 10000 20000 0
    (by decide) (by decide) (by decide)

/-! ## C3 — shape of the status-query response -/

/-- Claim C3 counterexample: the completed response carries no `progress`
field, and the polling client helper `getQueueStatus` hands back only the
bare status string — not the full record — refuting the claim that every
status-query response contains status, progress and message and that the
full record reaches the polling client. -/
theorem C3_counterexample_completed_lacks_progress :
    (videoStatusGET "session_0" 20000).progress = none
    ∧ getQueueStatus (videoStatusGET "session_0" 20000) = "completed" := by
  decide

/-- Claim C3 (amended): the generating-branch response contains a status,
a progress value and a message (and no video reference); the completed
response contains a status, a message and a video reference but no
progress field; the error response carries only a status and an error
string (no progress, message or video reference); and the polling client
helper `getQueueStatus` returns only the status field of the response,
not the full record. -/
theorem C3_amended_response_fields (sid : String) (now ts : Int)
    (h : sessionTimestampOf sid = some ts) :
    (now - ts < 10000 →
      (videoStatusGET sid now).status = "generating"
      ∧ ((videoStatusGET sid now).progress).isSome = true
      ∧ ((videoStatusGET sid now).message).isSome = true
      ∧ (videoStatusGET sid now).videoUrl = none)
    ∧ (10000 ≤ now - ts →
      (videoStatusGET sid now).status = "completed"
      ∧ (videoStatusGET sid now).progress = none
      ∧ ((videoStatusGET sid now).message).isSome = true
      ∧ ((videoStatusGET sid now).videoUrl).isSome = true)
    ∧ (errorResponse.status = "error"
      ∧ errorResponse.error = some "Failed to get video status"
      ∧ errorResponse.progress = none
      ∧ errorResponse.message = none
      ∧ errorResponse.videoUrl = none)
    ∧ (∀ data : StatusResponse, getQueueStatus data = data.status) := by
  refine ⟨fun hlt => ?_, fun hge => ?_, ⟨rfl, rfl, rfl, rfl, rfl⟩,
    fun _ => rfl⟩
  · simp only [videoStatusGET, h]
    rw [if_pos hlt]
    exact ⟨rfl, rfl, rfl, rfl⟩
  · simp only [videoStatusGET, h]
    rw [if_neg (by omega)]
    exact ⟨rfl, rfl, rfl, rfl⟩

/-- Claim C3 witness: the amended theorem applied to session `session_0`
at time 5000 (generating phase). -/
theorem C3_amended_response_fields_witness :
    ((5000 : Int) - 0 < 10000 →
      (videoStatusGET "session_0" 5000).status = "generating"
      ∧ ((videoStatusGET "session_0" 5000).progress).isSome = true
      ∧ ((videoStatusGET "session_0" 5000).message).isSome = true
      ∧ (videoStatusGET "session_0" 5000).videoUrl = none)
    ∧ ((10000 : Int) ≤ 5000 - 0 →
      (videoStatusGET "session_0" 5000).status = "completed"
      ∧ (videoStatusGET "session_0" 5000).progress = none
      ∧ ((videoStatusGET "session_0" 5000).message).isSome = true
      ∧ ((videoStatusGET "session_0" 5000).videoUrl).isSome = true)
    ∧ (errorResponse.status = "error"
      ∧ errorResponse.error = some "Failed to get video status"
      ∧ errorResponse.progress = none
      ∧ errorResponse.message = none
      ∧ errorResponse.videoUrl = none)
    ∧ (∀ data : StatusResponse, getQueueStatus data = data.status) :=
  C3_amended_response_fields "session_0" 5000 0 (by decide)

/-! ## C4 — submit-job result -/

/-- Claim C4 counterexample: submitting a valid request stores the new
document with initial status `'pending'`, not `'queued'`, and the action's
return value carries only `success` and the inserted id — no status field —
refuting the claim that the job starts as `queued` and that `queued` is
returned to the caller. -/
theorem C4_counterexample_initial_status_pending :
    (createVideoPrompt "u" "p" 0 true true []).2.1 =
      [{ userid := "u", prompt := "p", status := "pending", createdAt := 0,
         docId := 0 }]
    ∧ ("pending" : String) ≠ "queued"
    ∧ (createVideoPrompt "u" "p" 0 true true []).1 =
      { success := true, error := none, insertedId := some 0 } := by
  decide

/-- Claim C4 (amended): for every request with nonempty `userid` and
`prompt` (with the database up and the backend URL configured), the submit
path creates the job with initial stored status `'pending'` and returns to
the caller only success together with the new job id: the action returns
`{success: true, data: {insertedId}}` and the route answers HTTP 200 with
`{success: true, insertedId}`; no status is included in either. -/
theorem C4_amended_submit_returns_id_only (userid prompt : String)
    (now : Int) (db : List VideoPromptDoc)
    (h1 : userid ≠ "") (h2 : prompt ≠ "") :
    (createVideoPrompt userid prompt now true true db).1 =
      { success := true, error := none, insertedId := some db.length }
    ∧ (createVideoPrompt userid prompt now true true db).2.1 =
      db ++ [{ userid := userid, prompt := prompt, status := "pending",
               createdAt := now, docId := db.length }]
    ∧ (submitPOST userid prompt now true true db).1 =
      { httpStatus := 200, success := true, error := none,
        insertedId := some db.length } := by
  have hcond : ¬(userid = "" ∨ prompt = "") := by simp [h1, h2]
  simp [createVideoPrompt, submitPOST, hcond]

/-- Claim C4 witness: the amended theorem applied to the request
`{userid: "u", prompt: "p"}` against the empty database. -/
theorem C4_amended_submit_returns_id_only_witness :
    (createVideoPrompt "u" "p" 0 true true []).1 =
      { success := true, error := none, insertedId := some ([] : List VideoPromptDoc).length }
    ∧ (createVideoPrompt "u" "p" 0 true true []).2.1 =
      [] ++ [{ userid := "u", prompt := "p", status := "pending",
               createdAt := 0, docId := ([] : List VideoPromptDoc).length }]
    ∧ (submitPOST "u" "p" 0 true true []).1 =
      { httpStatus := 200, success := true, error := none,
        insertedId := some ([] : List VideoPromptDoc).length } :=
  C4_amended_submit_returns_id_only "u" "p" 0 [] (by decide) (by decide)

/-! ## C5 — video reference only on terminal success -/

/-- Claim C5: for every session id and query time, the status-poll response
contains a video reference if and only if its status is the terminal
success state `'completed'`; the in-progress (generating) response and the
error response never carry a `videoUrl`. -/
theorem C5_videoUrl_iff_completed (sessionId : String) (now : Int) :
    ((videoStatusGET sessionId now).videoUrl ≠ none ↔
      (videoStatusGET sessionId now).status = "completed")
    ∧ errorResponse.videoUrl = none := by
  refine ⟨?_, rfl⟩
  unfold videoStatusGET
  cases h : sessionTimestampOf sessionId with
  | none => simp [completedResponse]
  | some ts =>
    by_cases hlt : now - ts < 10000
    · simp [hlt, generatingResponse, completedResponse]
    · simp [hlt, generatingResponse, completedResponse]

/-! ## C6 — Improvement Loop termination -/

/-- The loop body performs at most `r` further cycles (each cycle appends
exactly one IterationRecord) and its outcome is `satisfied` or
`exhausted`, for every behavior of the collaborators. -/
theorem runImprove_bound {S V : Type} (render : Nat → S → V)
    (score : Nat → V → List ℚ) (patch : Nat → S → Feedback → S)
    (validScript : S → Bool) (target : ℚ) :
    ∀ (r i : Nat) (s : S) (acc : List (IterationRecord S V)),
      (runImprove render score patch validScript target i r s acc).2.length
          ≤ acc.length + r
      ∧ ((runImprove render score patch validScript target i r s acc).1
            = Outcome.satisfied
         ∨ (runImprove render score patch validScript target i r s acc).1
            = Outcome.exhausted) := by
  intro r
  induction r with
  | zero =>
    intro i s acc
    simp [runImprove]
  | succ r ih =>
    intro i s acc
    by_cases hsat : (scoreVideo score target i (render i s)).satisfied
    · simp [runImprove, hsat]
    · by_cases hr : r = 0
      · subst hr
        simp [runImprove, hsat]
      · have key := ih (i + 1)
          (if validScript (patch i s (scoreVideo score target i (render i s)))
            then patch i s (scoreVideo score target i (render i s)) else s)
          (acc ++ [⟨i, s, render i s, scoreVideo score target i (render i s)⟩])
        simp only [runImprove]
        rw [if_neg hsat, if_neg hr]
        constructor
        · have h1 := key.1
          simp only [List.length_append, List.length_singleton] at h1 ⊢
          omega
        · exact key.2

/-- Claim C6: for every max-iteration bound `M`, every target and every
behavior of the render, scoring, patch and validation collaborators, the
Improvement Loop terminates (it is a total function), performs at most `M`
render+score cycles (it persists at most `M` IterationRecords), and the
session's final outcome is exactly `satisfied` or `exhausted` — never
`aborted`, and no path loops indefinitely; a structurally invalid patch
candidate is discarded while its cycle still counts against the budget,
as embedded in the loop body. -/
theorem C6_loop_bounded_and_terminal {S V : Type} (render : Nat → S → V)
    (score : Nat → V → List ℚ) (patch : Nat → S → Feedback → S)
    (validScript : S → Bool) (target : ℚ) (M : Nat) (s0 : S) :
    (improvementLoop render score patch validScript target M s0).2.length ≤ M
    ∧ ((improvementLoop render score patch validScript target M s0).1
          = Outcome.satisfied
       ∨ (improvementLoop render score patch validScript target M s0).1
          = Outcome.exhausted) := by
  have h := runImprove_bound render score patch validScript target M 1 s0 []
  simpa [improvementLoop] using h

/-! ## C7 — Scenario B -/

/-- Claim C7: with successive overall scores 6.5, 7.2 and 8.3, target 8.0
and max 5 iterations, the Improvement Loop stops after exactly iteration 3
(earlier scores are below target, 8.3 ≥ 8.0 is satisfied), the session's
outcome is `satisfied`, and the reported improvement is
8.3 − 6.5 = 1.8 (= 9/5). -/
theorem C7_scenarioB :
    (improvementLoop scenarioBRender scenarioBScore scenarioBPatch
        scenarioBValid 8 5 "s0").1 = Outcome.satisfied
    ∧ ((improvementLoop scenarioBRender scenarioBScore scenarioBPatch
        scenarioBValid 8 5 "s0").2.map fun r => (r.idx, r.feedback.overall))
      = [(1, 13 / 2), (2, 36 / 5), (3, 83 / 10)]
    ∧ (83 / 10 : ℚ) - 13 / 2 = 9 / 5 := by
  refine ⟨?_, ?_, by norm_num⟩ <;>
  · simp only [improvementLoop, runImprove, scenarioBRender, scenarioBScore,
      scenarioBPatch, scenarioBValid, scoreVideo, meanScore]
    norm_num

/-! ## C8 — progress stays in [0, 100] -/

/-- Claim C8 counterexample: `updateQueueItemStatus` performs no range
check — updating a freshly enqueued item with progress 150 stores 150,
which lies outside [0, 100], refuting the claim that no status-update
operation can store a progress outside that range. -/
theorem C8_counterexample_progress_range_unchecked :
    ((updateQueueItemStatus (addToQueue [] "p" none 1) 1 Status.rendering
        (some 150) none none).map fun it => it.progress) = [some 150]
    ∧ ¬((150 : Int) ≤ 100) := by
  decide

/-- Claim C8 (amended): newly enqueued jobs start at progress 0, and the
status route's generating response reports a progress within [0, 99]
whenever the elapsed time since the session timestamp is nonnegative (the
completed and error responses carry no progress field at all); but
`updateQueueItemStatus` stores whatever progress value is supplied without
any range check, so the store itself does not maintain the [0, 100]
invariant. -/
theorem C8_amended_progress_range (q : List QueueItem) (prompt : String)
    (videoId : Option String) (now : Nat) (sid : String) (t ts : Int)
    (h : sessionTimestampOf sid = some ts) (h0 : 0 ≤ t - ts)
    (h1 : t - ts < 10000) :
    (∀ item ∈ addToQueue q prompt videoId now,
      item ∈ q ∨ item.progress = some 0)
    ∧ ∃ p, (videoStatusGET sid t).progress = some p ∧ 0 ≤ p ∧ p ≤ 99 := by
  constructor
  · intro item hmem
    rcases List.mem_append.1 hmem with h' | h'
    · exact Or.inl h'
    · right
      simp only [List.mem_singleton] at h'
      subst h'
      rfl
  · refine ⟨min (Int.fdiv (t - ts) 100) 99, ?_, ?_, min_le_right _ _⟩
    · simp only [videoStatusGET, h]
      rw [if_pos h1]
      rfl
    · exact le_min (Int.fdiv_nonneg h0 (by norm_num)) (by norm_num)

/-- Claim C8 witness: the amended theorem applied to an empty queue, prompt
`"p"`, time 1, and session `session_0` queried at time 500. -/
theorem C8_amended_progress_range_witness :
    (∀ item ∈ addToQueue [] "p" none 1, item ∈ ([] : List QueueItem)
      ∨ item.progress = some 0)
    ∧ ∃ p, (videoStatusGET "session_0" 500).progress = some p
        ∧ 0 ≤ p ∧ p ≤ 99 :=
  C8_amended_progress_range [] "p" none 1 "session_0" 500 0
    (by decide) (by decide) (by decide)

/-! ## C9 — validation short-circuit on the submit path -/

/-- Claim C9: for every input with missing (empty) `userid` or `prompt`,
`createVideoPrompt` returns `{success: false,
error: 'User ID and prompt are required.'}` without invoking `connectToDb`
and without inserting any document (the database is unchanged), and the
submit route answers HTTP 400, leaving the database unchanged, without
calling `createVideoPrompt` at all. -/
theorem C9_validation_short_circuit (userid prompt : String) (now : Int)
    (dbUp backendUrlDefined : Bool) (db : List VideoPromptDoc)
    (h : userid = "" ∨ prompt = "") :
    createVideoPrompt userid prompt now dbUp backendUrlDefined db =
      ({ success := false, error := some "User ID and prompt are required.",
         insertedId := none }, db, false)
    ∧ (submitPOST userid prompt now dbUp backendUrlDefined db).1.httpStatus
        = 400
    ∧ (submitPOST userid prompt now dbUp backendUrlDefined db).2.1 = db
    ∧ (submitPOST userid prompt now dbUp backendUrlDefined db).2.2 = false := by
  unfold createVideoPrompt submitPOST
  simp [if_pos h]

/-- Claim C9 witness: the theorem applied to an empty `userid` with prompt
`"p"` against the empty database. -/
theorem C9_validation_short_circuit_witness :
    createVideoPrompt "" "p" 0 true true [] =
      ({ success := false, error := some "User ID and prompt are required.",
         insertedId := none }, [], false)
    ∧ (submitPOST "" "p" 0 true true []).1.httpStatus = 400
    ∧ (submitPOST "" "p" 0 true true []).2.1 = []
    ∧ (submitPOST "" "p" 0 true true []).2.2 = false :=
  C9_validation_short_circuit "" "p" 0 true true [] (Or.inl rfl)

/-! ## C10 — frame condition of `updateQueueItemStatus` -/

/-- Claim C10: `updateQueueItemStatus` preserves the queue's length, leaves
every item whose id differs from the given id completely unchanged, and
replaces the matched item by one with the same `id`, `prompt`, `videoId`
and `createdAt` but with `status`, `progress`, `message` and `videoUrl`
set to exactly the supplied arguments — so a call that omits the optional
arguments (passes `none`) erases any previously stored progress, message
and video URL of that item. -/
theorem C10_update_frame (q : List QueueItem) (id : Nat) (st : Status)
    (p : Option Int) (m : Option String) (v : Option String) (i : Nat)
    (item : QueueItem) (h : q[i]? = some item) :
    (updateQueueItemStatus q id st p m v).length = q.length
    ∧ (item.id ≠ id → (updateQueueItemStatus q id st p m v)[i]? = some item)
    ∧ (item.id = id → (updateQueueItemStatus q id st p m v)[i]? =
        some { id := item.id
               prompt := item.prompt
               videoId := item.videoId
               status := st
               progress := p
               message := m
               videoUrl := v
               createdAt := item.createdAt }) := by
  refine ⟨by simp [updateQueueItemStatus], fun hne => ?_, fun heq => ?_⟩
  · simp [updateQueueItemStatus, List.getElem?_map, h, hne]
  · simp [updateQueueItemStatus, List.getElem?_map, h, heq]

/-- Claim C10 witness: the frame theorem applied to a two-item queue at the
index of the non-matching item, and the update erasing optional fields. -/
theorem C10_update_frame_witness :
    (updateQueueItemStatus
        [{ id := 1, prompt := "a", videoId := some "v", status := Status.rendering,
           progress := some 30, message := some "m", videoUrl := some "u",
           createdAt := 0 },
         { id := 2, prompt := "b", videoId := none, status := Status.queued,
           progress := some 0, message := none, videoUrl := none,
           createdAt := 0 }] 1 Status.complete none none none).length = 2
    ∧ ((1 : Nat) ≠ 1 → (updateQueueItemStatus
        [{ id := 1, prompt := "a", videoId := some "v", status := Status.rendering,
           progress := some 30, message := some "m", videoUrl := some "u",
           createdAt := 0 },
         { id := 2, prompt := "b", videoId := none, status := Status.queued,
           progress := some 0, message := none, videoUrl := none,
           createdAt := 0 }] 1 Status.complete none none none)[0]? =
        some { id := 1, prompt := "a", videoId := some "v",
               status := Status.rendering, progress := some 30,
               message := some "m", videoUrl := some "u", createdAt := 0 })
    ∧ ((1 : Nat) = 1 → (updateQueueItemStatus
        [{ id := 1, prompt := "a", videoId := some "v", status := Status.rendering,
           progress := some 30, message := some "m", videoUrl := some "u",
           createdAt := 0 },
         { id := 2, prompt := "b", videoId := none, status := Status.queued,
           progress := some 0, message := none, videoUrl := none,
           createdAt := 0 }] 1 Status.complete none none none)[0]? =
        some { id := 1, prompt := "a", videoId := some "v",
               status := Status.complete, progress := none,
               message := none, videoUrl := none, createdAt := 0 }) :=
  C10_update_frame
    [{ id := 1, prompt := "a", videoId := some "v", status := Status.rendering,
       progress := some 30, message := some "m", videoUrl := some "u",
       createdAt := 0 },
     { id := 2, prompt := "b", videoId := none, status := Status.queued,
       progress := some 0, message := none, videoUrl := none,
       createdAt := 0 }] 1 Status.complete none none none 0
    { id := 1, prompt := "a", videoId := some "v", status := Status.rendering,
      progress := some 30, message := some "m", videoUrl := some "u",
      createdAt := 0 }
    (by decide)

end Eidolon
